import Mathlib

/-!
Shallow embedding of the Personal-Tracker analytics core
(`src/js/financial-engine.js`: `FinancialEngine.calculateState`,
`runRiskEngine`, `runBehaviorModel`, `getAlerts`; the habit streak
updaters `markHabitDone` from the legacy app script bundled in the same
file and `markDone` from the enhanced habit page).

Modelling conventions:
* JS numbers are embedded as exact rationals (`ℚ`); the decimal
  literals 0.15, 0.6, 0.4, 1.5 of the source denote those exact
  rationals here.
* Calendar dates (`dateISO` strings `YYYY-MM-DD`) are embedded as
  epoch-day indices (`ℤ`, days since 1970-01-01).  String operations of
  the source translate to day arithmetic: `startsWith(currentMonth)`
  becomes membership in the current month's day range,
  `last7Days.includes` becomes membership in `[today-6, today]`, and
  `new Date(dateISO).getDay()` becomes `(d + 4) % 7` (1970-01-01 was a
  Thursday; JS `getDay` has Sunday = 0).
* The evaluation instant (`new Date()` in the source) is made explicit
  as a `Clock` carrying today's epoch day, the day of month and the
  number of days in the current month.
* An optional `timestamp` is embedded by the only field the engine ever
  reads from it, its `getHours()` value: `Option ℕ` (`none` when the
  record has no timestamp).
* `Math.round` is `⌊q + 1/2⌋` (JS rounds half toward +∞).
* JS objects used as string-keyed accumulators (`catTotals`,
  `habitLogs`) are embedded as insertion-ordered association lists.
-/

/-- Transaction type tag: the source compares `f.type` against the two
string literals for expense and income; the data model makes it a
two-valued enum. -/
inductive TType where
  | expense
  | income
deriving DecidableEq

/-- A ledger transaction (element of the `finances` array). -/
structure Transaction where
  type : TType
  amount : ℚ
  category : Option String
  dateISO : ℤ
  timestamp : Option ℕ
deriving DecidableEq

/-- The evaluation instant: the fields of `new Date()` the engine
reads. -/
structure Clock where
  today : ℤ
  currentDay : ℕ
  daysInMonth : ℕ
deriving DecidableEq

/-- `f.dateISO.startsWith(currentMonth)`: the date lies in the current
calendar month, i.e. in `[today - currentDay + 1, today - currentDay +
daysInMonth]`. -/
def inCurrentMonth (c : Clock) (d : ℤ) : Bool :=
  decide (c.today - c.currentDay + 1 ≤ d) &&
    decide (d ≤ c.today - c.currentDay + c.daysInMonth)

/-- `last7Days.includes(f.dateISO)`: the trailing 7-day window, today
inclusive. -/
def inLast7Days (c : Clock) (d : ℤ) : Bool :=
  decide (c.today - 6 ≤ d) && decide (d ≤ c.today)

/-- `new Date(dateISO).getDay()`: 0 = Sunday … 6 = Saturday. -/
def getDay (d : ℤ) : ℤ := (d + 4) % 7

/-- `Math.round` (half rounds toward +∞). -/
def jsRound (q : ℚ) : ℤ := ⌊q + 1 / 2⌋

/-- JS `monthlyBudget || 0`; also the coercion `Number(null) = 0`
performed by `monthlyBudget * 0.15`. -/
def budgetOr0 : Option ℚ → ℚ
  | some b => b
  | none => 0

/-- JS truthiness test `!monthlyBudget`: null and 0 are falsy. -/
def isFalsyBudget : Option ℚ → Bool
  | some b => decide (b = 0)
  | none => true

/-- JS comparison `monthlyBudget > 0` (`null > 0` is false). -/
def budgetGtZero : Option ℚ → Bool
  | some b => decide (0 < b)
  | none => false

/-- `reduce((sum, f) => sum + f.amount, 0)`. -/
def sumAmounts (ts : List Transaction) : ℚ :=
  (ts.map (fun t => t.amount)).sum

/-- The `safetyLevel` enum. -/
inductive SafetyLevel where
  | Stable
  | Warning
  | Critical
deriving DecidableEq

/-- Result record of `FinancialEngine.calculateState`. -/
structure FinancialState where
  balanceLeft : ℚ
  burnRatePerDay : ℚ
  projectedEndBalance : ℚ
  safetyLevel : SafetyLevel
  monthExpenses : ℚ
  monthIncome : ℚ
deriving DecidableEq

/-- The `monthExpenses` sum computed by `calculateState`. -/
def monthExpensesOf (finances : List Transaction) (c : Clock) : ℚ :=
  sumAmounts (finances.filter
    (fun f => decide (f.type = TType.expense) && inCurrentMonth c f.dateISO))

/-- The `monthIncome` sum computed by `calculateState`. -/
def monthIncomeOf (finances : List Transaction) (c : Clock) : ℚ :=
  sumAmounts (finances.filter
    (fun f => decide (f.type = TType.income) && inCurrentMonth c f.dateISO))

/-- `FinancialEngine.calculateState(finances, monthlyBudget)`. -/
def calculateState (finances : List Transaction) (monthlyBudget : Option ℚ)
    (c : Clock) : FinancialState :=
  let monthExpenses := monthExpensesOf finances c
  let monthIncome := monthIncomeOf finances c
  let balanceLeft := budgetOr0 monthlyBudget - monthExpenses
  let burnRatePerDay := if 0 < c.currentDay then monthExpenses / c.currentDay else 0
  let projectedEndBalance := budgetOr0 monthlyBudget - burnRatePerDay * c.daysInMonth
  let safetyLevel :=
    if projectedEndBalance < 0 then SafetyLevel.Critical
    else if projectedEndBalance < budgetOr0 monthlyBudget * 0.15 then SafetyLevel.Warning
    else SafetyLevel.Stable
  { balanceLeft := balanceLeft
    burnRatePerDay := burnRatePerDay
    projectedEndBalance := projectedEndBalance
    safetyLevel := safetyLevel
    monthExpenses := monthExpenses
    monthIncome := monthIncome }

/-- Result record of `FinancialEngine.runRiskEngine`. -/
structure RiskSignals where
  overspendRisk : ℤ
  deficitRisk : ℤ
  riskScore : ℤ
deriving DecidableEq

/-- `FinancialEngine.runRiskEngine(state, monthlyBudget)`. -/
def runRiskEngine (state : FinancialState) (monthlyBudget : Option ℚ)
    (c : Clock) : RiskSignals :=
  if isFalsyBudget monthlyBudget then ⟨0, 0, 0⟩
  else
    let budgetUsedPercent := state.monthExpenses / budgetOr0 monthlyBudget * 100
    let daysPassedPercent := ((c.currentDay : ℚ) / c.daysInMonth) * 100
    let overspendRisk := max 0 (budgetUsedPercent - daysPassedPercent)
    let deficitRisk :=
      if state.projectedEndBalance < 0 then
        min 100 (|state.projectedEndBalance / budgetOr0 monthlyBudget| * 100)
      else 0
    let riskScore := min 100 (overspendRisk * 0.6 + deficitRisk * 0.4)
    ⟨jsRound overspendRisk, jsRound deficitRisk, jsRound riskScore⟩

/-- JS property key of `catTotals[f.category]`: a missing `category`
is coerced to the string key `"undefined"`. -/
def catKey : Option String → String
  | some s => s
  | none => "undefined"

/-- One step of `catTotals[f.category] = (catTotals[f.category] || 0) +
f.amount` on the insertion-ordered association list. -/
def addToTotals : List (String × ℚ) → String → ℚ → List (String × ℚ)
  | [], k, v => [(k, v)]
  | p :: rest, k, v =>
    if p.1 = k then (p.1, p.2 + v) :: rest else p :: addToTotals rest k v

/-- The `catTotals` object built by `runBehaviorModel`. -/
def buildTotals (ts : List Transaction) : List (String × ℚ) :=
  ts.foldl (fun acc f => addToTotals acc (catKey f.category) f.amount) []

/-- `recentExpenses`: expense transactions of the trailing 7-day
window. -/
def recentExpensesOf (finances : List Transaction) (c : Clock) : List Transaction :=
  finances.filter (fun f => decide (f.type = TType.expense) && inLast7Days c f.dateISO)

/-- JS `(xs.length || 1)` denominator guard. -/
def orOne (n : ℕ) : ℕ := if n = 0 then 1 else n

/-- `reduce((s, f) => s + f.amount, 0) / (xs.length || 1)`. -/
def avgTx (ts : List Transaction) : ℚ := sumAmounts ts / orOne ts.length

/-- `new Date(f.dateISO).getDay()` is Saturday or Sunday. -/
def isWeekendDay (d : ℤ) : Bool := decide (getDay d = 0) || decide (getDay d = 6)

/-- `new Date(f.dateISO).getDay()` is Monday … Friday. -/
def isWeekdayDay (d : ℤ) : Bool := decide (1 ≤ getDay d) && decide (getDay d ≤ 5)

/-- The `weekends` group of `runBehaviorModel`. -/
def weekendsOf (ts : List Transaction) : List Transaction :=
  ts.filter (fun f => isWeekendDay f.dateISO)

/-- The `weekdays` group of `runBehaviorModel`. -/
def weekdaysOf (ts : List Transaction) : List Transaction :=
  ts.filter (fun f => isWeekdayDay f.dateISO)

/-- The late-night filter: records without a `timestamp` are skipped
(`if (!f.timestamp) return false`), otherwise
`hour >= 22 || hour <= 5`. -/
def isLateNightTx (f : Transaction) : Bool :=
  match f.timestamp with
  | none => false
  | some hour => decide (22 ≤ hour) || decide (hour ≤ 5)

/-- The `lateNightCount` of `runBehaviorModel`. -/
def lateNightCountOf (ts : List Transaction) : ℕ := (ts.filter isLateNightTx).length

/-- Result record of `FinancialEngine.runBehaviorModel`. -/
structure BehaviorProfile where
  categorySpikes : List String
  impulsePattern : Bool
  abnormalVelocity : Bool
  weekendSpike : Bool
  lateNightSpike : Bool
  recentFrequency : ℕ
deriving DecidableEq

/-- `FinancialEngine.runBehaviorModel(finances)`. -/
def runBehaviorModel (finances : List Transaction) (c : Clock) : BehaviorProfile :=
  let recentExpenses := recentExpensesOf finances c
  let catTotals := buildTotals recentExpenses
  let spikes := (catTotals.filter (fun p => decide (5000 < p.2))).map Prod.fst
  let impulseCount :=
    (recentExpenses.filter (fun f => decide (100 < f.amount) && decide (f.amount < 1000))).length
  let hasImpulsePattern := decide (5 < impulseCount)
  let todayPrice := sumAmounts (recentExpenses.filter (fun f => decide (f.dateISO = c.today)))
  let avgDaily := sumAmounts recentExpenses / 7
  let isAbnormalVelocity := decide (avgDaily * 2 < todayPrice) && decide (1000 < todayPrice)
  let avgWeekend := avgTx (weekendsOf recentExpenses)
  let avgWeekday := avgTx (weekdaysOf recentExpenses)
  let isWeekendSpike := decide (avgWeekday * 1.5 < avgWeekend) && decide (2000 < avgWeekend)
  let isLateNightSpike := decide (2 ≤ lateNightCountOf recentExpenses)
  { categorySpikes := spikes
    impulsePattern := hasImpulsePattern
    abnormalVelocity := isAbnormalVelocity
    weekendSpike := isWeekendSpike
    lateNightSpike := isLateNightSpike
    recentFrequency := recentExpenses.length }

/-- Alert `type` tags produced by `getAlerts`. -/
inductive AlertType where
  | budget_critical
  | budget_warning
  | velocity_spike
  | behavior_anomaly
deriving DecidableEq

/-- An alert event (`{ type, title, message }`). -/
structure Alert where
  type : AlertType
  title : String
  message : String
deriving DecidableEq

/-- Message of the `budget_critical` alert. -/
def criticalMessage (utilization : ℚ) : String :=
  "You have exhausted " ++ toString (jsRound (utilization * 100)) ++
    "% of your monthly budget!"

/-- Message of the `budget_warning` alert. -/
def warningMessage (utilization : ℚ) : String :=
  "You have used " ++ toString (jsRound (utilization * 100)) ++ "% of your budget."

/-- The `budget_critical` alert. -/
def criticalAlert (utilization : ℚ) : Alert :=
  { type := AlertType.budget_critical
    title := "🛑 Critical Budget Alert"
    message := criticalMessage utilization }

/-- The `budget_warning` alert. -/
def warningAlert (utilization : ℚ) : Alert :=
  { type := AlertType.budget_warning
    title := "⚠️ Budget Warning"
    message := warningMessage utilization }

/-- The pace-based `velocity_spike` alert (rule 2 of `getAlerts`). -/
def velocityAlert : Alert :=
  { type := AlertType.velocity_spike
    title := "⚡ Spending Spike"
    message := "Your spending velocity is significantly higher than usual for this time of month." }

/-- The late-night `behavior_anomaly` alert. -/
def lateNightAlert : Alert :=
  { type := AlertType.behavior_anomaly
    title := "🌙 Late Night Spending"
    message := "We noticed multiple late-night transactions. Consider setting a curfew for shopping apps!" }

/-- The today-specific `velocity_spike` alert (abnormal velocity). -/
def abnormalAlert : Alert :=
  { type := AlertType.velocity_spike
    title := "📈 Unusual Activity"
    message := "Your spending today is more than double your daily average." }

/-- The budget-utilization rule of `getAlerts` (rule 1). -/
def budgetAlertsOf (monthlyBudget : Option ℚ) (state : FinancialState) : List Alert :=
  if budgetGtZero monthlyBudget then
    let utilization := state.monthExpenses / budgetOr0 monthlyBudget
    if 0.9 ≤ utilization then [criticalAlert utilization]
    else if 0.75 ≤ utilization then [warningAlert utilization]
    else []
  else []

/-- `FinancialEngine.getAlerts(finances, monthlyBudget)`: the rules
push onto one array in a fixed order; pushes are embedded as list
appends. -/
def getAlerts (finances : List Transaction) (monthlyBudget : Option ℚ)
    (c : Clock) : List Alert :=
  let state := calculateState finances monthlyBudget c
  let risks := runRiskEngine state monthlyBudget c
  let behavior := runBehaviorModel finances c
  budgetAlertsOf monthlyBudget state
    ++ (if 40 < risks.overspendRisk then [velocityAlert] else [])
    ++ (if behavior.lateNightSpike then [lateNightAlert] else [])
    ++ (if behavior.abnormalVelocity then [abnormalAlert] else [])

/-- A habit record.  The legacy `markHabitDone` reads and writes
`streak` and `lastDone`; the enhanced page's `markDone` touches only
`streak` (its records carry no `lastDone`, which is simply never read
or written there). -/
structure Habit where
  id : ℕ
  name : String
  streak : ℕ
  lastDone : Option ℤ
deriving DecidableEq

/-- Lookup `habitLogs[day]` in the day-keyed object, embedded as an
association list. -/
def logsGet {α : Type} : List (ℤ × α) → ℤ → Option α
  | [], _ => none
  | p :: rest, d => if p.1 = d then some p.2 else logsGet rest d

/-- Store `habitLogs[day] = v` (replace the existing entry or append a
new one). -/
def logsSet {α : Type} : List (ℤ × α) → ℤ → α → List (ℤ × α)
  | [], d, v => [(d, v)]
  | p :: rest, d, v => if p.1 = d then (p.1, v) :: rest else p :: logsSet rest d v

/-- In-place mutation of the record found by `find(h => h.id === id)`:
apply `f` to the first record with the given id. -/
def updateFirst : List Habit → ℕ → (Habit → Habit) → List Habit
  | [], _, _ => []
  | a :: rest, i, f => if a.id = i then f a :: rest else a :: updateFirst rest i f

/-- `diffDays(a, b) = Math.round((toUTC(a) - toUTC(b)) / 86400000)`:
exact day difference on epoch days. -/
def diffDays (a b : ℤ) : ℤ := a - b

/-- `markHabitDone(id)` from the legacy app script (state passed
explicitly; the login guard is outside the pure core). -/
def markHabitDone (activities : List Habit) (habitLogs : List (ℤ × List String))
    (i : ℕ) (today : ℤ) : List Habit × List (ℤ × List String) :=
  match activities.find? (fun h => decide (h.id = i)) with
  | none => (activities, habitLogs)
  | some a =>
    if a.lastDone = some today then (activities, habitLogs)
    else
      let newStreak : ℕ :=
        match a.lastDone with
        | none => 1
        | some d => if diffDays today d = 1 then a.streak + 1 else 1
      let acts := updateFirst activities i
        (fun h => { h with streak := newStreak, lastDone := some today })
      let cur := (logsGet habitLogs today).getD []
      let logs :=
        if a.name ∈ cur then habitLogs else logsSet habitLogs today (cur ++ [a.name])
      (acts, logs)

/-- `markDone(id, habitName)` from the enhanced habit page
(`habitLogs` buckets hold habit ids there; persistence calls become
explicit state passing). -/
def markDone (activities : List Habit) (habitLogs : List (ℤ × List ℕ))
    (i : ℕ) (today : ℤ) : List Habit × List (ℤ × List ℕ) :=
  let current := (logsGet habitLogs today).getD []
  if i ∈ current then (activities, habitLogs)
  else
    let logs := logsSet habitLogs today (current ++ [i])
    match activities.find? (fun h => decide (h.id = i)) with
    | none => (activities, logs)
    | some a => (updateFirst activities i (fun _ => { a with streak := a.streak + 1 }), logs)

/-- The streak of the habit with the given id (0 when absent). -/
def getStreak (activities : List Habit) (i : ℕ) : ℕ :=
  match activities.find? (fun h => decide (h.id = i)) with
  | some a => a.streak
  | none => 0

/-! ## Helper lemmas -/

lemma budgetOr0_eq_zero {b : Option ℚ} (h : isFalsyBudget b = true) :
    budgetOr0 b = 0 := by
  cases b with
  | none => rfl
  | some q =>
    simp only [isFalsyBudget, decide_eq_true_eq] at h
    simp [budgetOr0, h]

lemma jsRound_nonneg {q : ℚ} (h : 0 ≤ q) : 0 ≤ jsRound q :=
  Int.le_floor.mpr (by push_cast; linarith)

lemma jsRound_mono {q r : ℚ} (h : q ≤ r) : jsRound q ≤ jsRound r :=
  Int.floor_le_floor (by linarith)

lemma jsRound_100 : jsRound 100 = 100 := by
  norm_num [jsRound]

lemma jsRound_le_100 {q : ℚ} (h : q ≤ 100) : jsRound q ≤ 100 :=
  le_trans (jsRound_mono h) (le_of_eq jsRound_100)

lemma sumAmounts_nil : sumAmounts [] = 0 := rfl

lemma sumAmounts_cons (t : Transaction) (ts : List Transaction) :
    sumAmounts (t :: ts) = t.amount + sumAmounts ts := by
  simp [sumAmounts]

/-! ## C1: `calculateState` with a null/zero budget -/

/-- C1 (counterexample): with budget null and a single current-month
expense of 100 on day 5 of a 30-day month, `calculateState` projects a
negative end balance and returns `Critical`, not `Stable`. -/
theorem calculateState_nullBudget_counterexample :
    (calculateState [⟨TType.expense, 100, none, 100, none⟩] none
        ⟨100, 5, 30⟩).safetyLevel = SafetyLevel.Critical ∧
      SafetyLevel.Critical ≠ SafetyLevel.Stable := by
  constructor
  · norm_num [calculateState, monthExpensesOf, monthIncomeOf, sumAmounts,
      inCurrentMonth, budgetOr0, List.filter]
  · decide

/-- C1 (amended): for empty transactions and budget null,
`calculateState` returns the all-zero `FinancialState` with
`safetyLevel = Stable`; in general, when the budget is null or 0 the
safety level is `Stable` whenever the current-month expense sum is 0,
and `Critical` whenever it is positive (for a clock with a positive day
of month and month length). -/
theorem calculateState_nullBudget :
    (∀ c : Clock, calculateState [] none c =
      { balanceLeft := 0, burnRatePerDay := 0, projectedEndBalance := 0,
        safetyLevel := SafetyLevel.Stable, monthExpenses := 0, monthIncome := 0 }) ∧
    (∀ (fs : List Transaction) (b : Option ℚ) (c : Clock),
      isFalsyBudget b = true →
      (monthExpensesOf fs c = 0 →
        (calculateState fs b c).safetyLevel = SafetyLevel.Stable) ∧
      (0 < monthExpensesOf fs c → 0 < c.currentDay → 0 < c.daysInMonth →
        (calculateState fs b c).safetyLevel = SafetyLevel.Critical)) := by
  constructor
  · intro c
    have hm : monthExpensesOf [] c = 0 := rfl
    have hi : monthIncomeOf [] c = 0 := rfl
    simp [calculateState, hm, hi, budgetOr0, zero_div]
  · intro fs b c hb
    have hb0 : budgetOr0 b = 0 := budgetOr0_eq_zero hb
    constructor
    · intro h0
      simp [calculateState, hb0, h0, zero_div]
    · intro hpos hday hdim
      have hburn : (if 0 < c.currentDay then monthExpensesOf fs c / c.currentDay else 0) =
          monthExpensesOf fs c / c.currentDay := by simp [hday]
      have hratepos : 0 < monthExpensesOf fs c / (c.currentDay : ℚ) := by
        apply div_pos hpos
        exact_mod_cast hday
      have hproj : budgetOr0 b -
          (monthExpensesOf fs c / (c.currentDay : ℚ)) * (c.daysInMonth : ℚ) < 0 := by
        rw [hb0]
        have : 0 < (monthExpensesOf fs c / (c.currentDay : ℚ)) * (c.daysInMonth : ℚ) :=
          mul_pos hratepos (by exact_mod_cast hdim)
        linarith
      simp only [calculateState, hburn]
      rw [if_pos hproj]

/-- C1 witness: the amended theorem applied at concrete inputs. -/
theorem calculateState_nullBudget_witness :
    calculateState [] none ⟨50, 3, 31⟩ =
      { balanceLeft := 0, burnRatePerDay := 0, projectedEndBalance := 0,
        safetyLevel := SafetyLevel.Stable, monthExpenses := 0, monthIncome := 0 } ∧
    (calculateState [⟨TType.expense, 7, none, 50, none⟩] (some 0)
        ⟨50, 3, 31⟩).safetyLevel = SafetyLevel.Critical :=
  ⟨calculateState_nullBudget.1 ⟨50, 3, 31⟩,
   (calculateState_nullBudget.2 [⟨TType.expense, 7, none, 50, none⟩] (some 0)
      ⟨50, 3, 31⟩ (by decide)).2
      (by norm_num [monthExpensesOf, sumAmounts, inCurrentMonth, List.filter])
      (by decide) (by decide)⟩

/-! ## C2: bounds of `runRiskEngine` -/

/-- C2: for every state, budget and clock, `overspendRisk ≥ 0` and
`riskScore ∈ [0, 100]`; with a falsy budget (null or 0) all three
signals are 0. -/
theorem runRiskEngine_bounds (state : FinancialState) (b : Option ℚ) (c : Clock) :
    (0 ≤ (runRiskEngine state b c).overspendRisk ∧
      0 ≤ (runRiskEngine state b c).riskScore ∧
      (runRiskEngine state b c).riskScore ≤ 100) ∧
    (isFalsyBudget b = true → runRiskEngine state b c = ⟨0, 0, 0⟩) := by
  by_cases hf : isFalsyBudget b = true
  · constructor
    · simp [runRiskEngine, hf]
    · intro _
      simp [runRiskEngine, hf]
  · have hf' : isFalsyBudget b = false := by
      revert hf
      cases isFalsyBudget b <;> simp
    constructor
    · have ho : (0:ℚ) ≤ max 0 (state.monthExpenses / budgetOr0 b * 100 -
          (c.currentDay : ℚ) / (c.daysInMonth : ℚ) * 100) := le_max_left 0 _
      have hd : (0:ℚ) ≤ (if state.projectedEndBalance < 0 then
          min 100 (|state.projectedEndBalance / budgetOr0 b| * 100) else 0) := by
        split_ifs with hneg
        · exact le_min (by norm_num) (by positivity)
        · exact le_refl 0
      have hmix : (0:ℚ) ≤ max 0 (state.monthExpenses / budgetOr0 b * 100 -
            (c.currentDay : ℚ) / (c.daysInMonth : ℚ) * 100) * 0.6 +
          (if state.projectedEndBalance < 0 then
            min 100 (|state.projectedEndBalance / budgetOr0 b| * 100) else 0) * 0.4 :=
        add_nonneg (mul_nonneg ho (by norm_num)) (mul_nonneg hd (by norm_num))
      refine ⟨?_, ?_, ?_⟩ <;> simp only [runRiskEngine, hf', Bool.false_eq_true,
        if_false]
      · exact jsRound_nonneg ho
      · exact jsRound_nonneg (le_min (by norm_num) hmix)
      · exact jsRound_le_100 (min_le_left _ _)
    · intro h
      exact absurd h hf

/-! ## C8: additivity of the current-month expense filter -/

/-- C8: `monthExpenses` plus the sum of expense amounts outside the
current month equals the total expense sum. -/
theorem monthExpenses_partition (fs : List Transaction) (c : Clock) :
    monthExpensesOf fs c +
      sumAmounts (fs.filter
        (fun f => decide (f.type = TType.expense) && !inCurrentMonth c f.dateISO)) =
    sumAmounts (fs.filter (fun f => decide (f.type = TType.expense))) := by
  unfold monthExpensesOf
  induction fs with
  | nil => simp [sumAmounts]
  | cons t ts ih =>
    by_cases ht : t.type = TType.expense
    · by_cases hm : inCurrentMonth c t.dateISO = true
      · simp [List.filter_cons, ht, hm, sumAmounts_cons]
        linarith
      · have hm' : inCurrentMonth c t.dateISO = false := by
          revert hm
          cases inCurrentMonth c t.dateISO <;> simp
        simp [List.filter_cons, ht, hm', sumAmounts_cons]
        linarith
    · simp only [List.filter_cons, ht]
      simp only [decide_eq_true_eq]
      simp [ht]
      exact ih

/-! ## C10: `runBehaviorModel` ignores income transactions -/

lemma recentExpensesOf_factor (fs : List Transaction) (c : Clock) :
    recentExpensesOf fs c =
      (fs.filter (fun f => decide (f.type = TType.expense))).filter
        (fun f => inLast7Days c f.dateISO) := by
  unfold recentExpensesOf
  induction fs with
  | nil => rfl
  | cons t ts ih =>
    by_cases ht : t.type = TType.expense
    · by_cases hw : inLast7Days c t.dateISO = true
      · simp [List.filter_cons, ht, hw, ih]
      · have hw' : inLast7Days c t.dateISO = false := by
          revert hw
          cases inLast7Days c t.dateISO <;> simp
        simp [List.filter_cons, ht, hw', ih]
    · simp [List.filter_cons, ht, ih]

/-- C10: two transaction lists with the same expense records (i.e.
differing only in income transactions) produce identical
`BehaviorProfile`s. -/
theorem runBehaviorModel_incomeIndependent (fs₁ fs₂ : List Transaction) (c : Clock)
    (h : fs₁.filter (fun f => decide (f.type = TType.expense)) =
      fs₂.filter (fun f => decide (f.type = TType.expense))) :
    runBehaviorModel fs₁ c = runBehaviorModel fs₂ c := by
  have hre : recentExpensesOf fs₁ c = recentExpensesOf fs₂ c := by
    rw [recentExpensesOf_factor, recentExpensesOf_factor, h]
  unfold runBehaviorModel
  rw [hre]

/-- C10 witness: a late-night 9000-unit income inside the window has no
effect on the behavior profile. -/
theorem runBehaviorModel_incomeIndependent_witness :
    runBehaviorModel [⟨TType.income, 9000, none, 100, some 23⟩] ⟨100, 5, 30⟩ =
      runBehaviorModel [] ⟨100, 5, 30⟩ :=
  runBehaviorModel_incomeIndependent [⟨TType.income, 9000, none, 100, some 23⟩] []
    ⟨100, 5, 30⟩ (by simp [List.filter])

/-! ## Category-spike machinery (C4, C7) -/

/-- The per-bucket sum: total expense amount of the window whose
`catTotals` key is `k`. -/
def totalFor (ts : List Transaction) (k : String) : ℚ :=
  sumAmounts (ts.filter (fun f => decide (catKey f.category = k)))

/-- Value of a key in the accumulator object (0 when absent). -/
def alVal : List (String × ℚ) → String → ℚ
  | [], _ => 0
  | p :: rest, k => if p.1 = k then p.2 else alVal rest k

lemma alVal_addToTotals (l : List (String × ℚ)) (k : String) (v : ℚ) (q : String) :
    alVal (addToTotals l k v) q = if q = k then alVal l q + v else alVal l q := by
  induction l with
  | nil =>
    by_cases h : q = k
    · simp [addToTotals, alVal, h]
    · have h' : ¬(k = q) := fun hk => h hk.symm
      simp [addToTotals, alVal, h, h']
  | cons p rest ih =>
    by_cases hp : p.1 = k
    · by_cases hq : p.1 = q
      · have : q = k := by rw [← hq, hp]
        simp [addToTotals, alVal, hp, hq, this]
      · have : ¬(q = k) := fun h => hq (by rw [hp, h])
        have h2 : ¬(k = q) := fun h => this h.symm
        simp [addToTotals, alVal, hp, hq, this, h2]
    · by_cases hq : p.1 = q
      · have : ¬(q = k) := fun h => hp (by rw [hq, h])
        simp [addToTotals, alVal, hp, hq, this]
      · simp [addToTotals, alVal, hp, hq, ih]

lemma addToTotals_keys (l : List (String × ℚ)) (k : String) (v : ℚ) :
    (addToTotals l k v).map Prod.fst =
      if k ∈ l.map Prod.fst then l.map Prod.fst else l.map Prod.fst ++ [k] := by
  induction l with
  | nil => simp [addToTotals]
  | cons p rest ih =>
    by_cases hp : p.1 = k
    · simp [addToTotals, hp]
    · have : ¬(k = p.1) := fun h => hp h.symm
      by_cases hk : k ∈ rest.map Prod.fst
      · simp [addToTotals, hp, ih, hk, this]
      · simp [addToTotals, hp, ih, hk, this]

lemma addToTotals_keys_nodup (l : List (String × ℚ)) (k : String) (v : ℚ)
    (h : (l.map Prod.fst).Nodup) : ((addToTotals l k v).map Prod.fst).Nodup := by
  rw [addToTotals_keys]
  by_cases hk : k ∈ l.map Prod.fst
  · simp [hk, h]
  · simp only [hk, if_false]
    rw [List.nodup_append]
    exact ⟨h, List.nodup_singleton k, by simpa using fun hm => hk hm⟩

lemma alVal_foldTotals (ts : List Transaction) :
    ∀ (acc : List (String × ℚ)) (k : String),
      alVal (ts.foldl (fun acc f => addToTotals acc (catKey f.category) f.amount) acc) k =
        alVal acc k + totalFor ts k := by
  induction ts with
  | nil => intro acc k; simp [totalFor, sumAmounts, List.filter]
  | cons t ts ih =>
    intro acc k
    rw [List.foldl_cons, ih]
    rw [alVal_addToTotals]
    by_cases h : catKey t.category = k
    · have h' : k = catKey t.category := h.symm
      simp only [totalFor, List.filter_cons, h, decide_eq_true_eq, if_pos h']
      simp [h]
      rw [sumAmounts_cons]
      ring
    · have h' : ¬(k = catKey t.category) := fun hk => h hk.symm
      simp only [totalFor, List.filter_cons, if_neg h', sumAmounts_cons]
      simp [h]

lemma keys_foldTotals (ts : List Transaction) :
    ∀ (acc : List (String × ℚ)) (k : String),
      (k ∈ (ts.foldl (fun acc f => addToTotals acc (catKey f.category) f.amount) acc).map
          Prod.fst) ↔
        k ∈ acc.map Prod.fst ∨ ∃ t ∈ ts, catKey t.category = k := by
  induction ts with
  | nil => intro acc k; simp
  | cons t ts ih =>
    intro acc k
    rw [List.foldl_cons, ih, addToTotals_keys]
    by_cases hk : catKey t.category ∈ acc.map Prod.fst
    · simp only [hk, if_true]
      constructor
      · rintro (h | h)
        · exact Or.inl h
        · exact Or.inr ⟨_, List.mem_cons_of_mem t h.choose_spec.1, h.choose_spec.2⟩
      · rintro (h | ⟨u, hu, hc⟩)
        · exact Or.inl h
        · rcases List.mem_cons.mp hu with rfl | hu'
          · exact Or.inl (hc ▸ hk)
          · exact Or.inr ⟨u, hu', hc⟩
    · simp only [hk, if_false, List.mem_append, List.mem_singleton]
      constructor
      · rintro ((h | h) | h)
        · exact Or.inl h
        · exact Or.inr ⟨t, List.mem_cons_self t ts, h.symm⟩
        · exact Or.inr ⟨_, List.mem_cons_of_mem t h.choose_spec.1, h.choose_spec.2⟩
      · rintro (h | ⟨u, hu, hc⟩)
        · exact Or.inl (Or.inl h)
        · rcases List.mem_cons.mp hu with rfl | hu'
          · exact Or.inl (Or.inr hc.symm)
          · exact Or.inr ⟨u, hu', hc⟩

lemma nodup_foldTotals (ts : List Transaction) :
    ∀ acc : List (String × ℚ), (acc.map Prod.fst).Nodup →
      ((ts.foldl (fun acc f => addToTotals acc (catKey f.category) f.amount) acc).map
        Prod.fst).Nodup := by
  induction ts with
  | nil => intro acc h; simpa using h
  | cons t ts ih =>
    intro acc h
    rw [List.foldl_cons]
    exact ih _ (addToTotals_keys_nodup _ _ _ h)

lemma alVal_of_mem {l : List (String × ℚ)} {k : String} {w : ℚ}
    (hnd : (l.map Prod.fst).Nodup) (hm : (k, w) ∈ l) : alVal l k = w := by
  induction l with
  | nil => cases hm
  | cons p rest ih =>
    rcases List.mem_cons.mp hm with rfl | hm'
    · simp [alVal]
    · have hk : k ∈ rest.map Prod.fst :=
        List.mem_map.mpr ⟨(k, w), hm', rfl⟩
      have hp : p.1 ≠ k := by
        intro hpk
        rw [List.map_cons, List.nodup_cons] at hnd
        exact hnd.1 (hpk ▸ hk)
      simp only [alVal, if_neg hp]
      exact ih (by rw [List.map_cons, List.nodup_cons] at hnd; exact hnd.2) hm'

lemma totalFor_ne_zero_exists {ts : List Transaction} {k : String}
    (h : totalFor ts k ≠ 0) : ∃ t ∈ ts, catKey t.category = k := by
  by_contra hc
  push_neg at hc
  have : ts.filter (fun f => decide (catKey f.category = k)) = [] := by
    rw [List.filter_eq_nil_iff]
    intro t ht
    simp [hc t ht]
  exact h (by simp [totalFor, this, sumAmounts])

/-- The characterization of `categorySpikes`: a label is flagged
exactly when its bucket total over the recent-expense window exceeds
5000. -/
lemma mem_categorySpikes_iff (fs : List Transaction) (c : Clock) (cat : String) :
    cat ∈ (runBehaviorModel fs c).categorySpikes ↔
      5000 < totalFor (recentExpensesOf fs c) cat := by
  have hspikes : (runBehaviorModel fs c).categorySpikes =
      ((buildTotals (recentExpensesOf fs c)).filter
        (fun p => decide (5000 < p.2))).map Prod.fst := rfl
  have hnd : ((buildTotals (recentExpensesOf fs c)).map Prod.fst).Nodup :=
    nodup_foldTotals _ [] (by simp)
  have hval : alVal (buildTotals (recentExpensesOf fs c)) cat =
      totalFor (recentExpensesOf fs c) cat := by
    have := alVal_foldTotals (recentExpensesOf fs c) [] cat
    simpa [buildTotals, alVal] using this
  rw [hspikes]
  constructor
  · intro h
    rcases List.mem_map.mp h with ⟨p, hpmem, hpfst⟩
    rcases List.mem_filter.mp hpmem with ⟨hpin, hpgt⟩
    have hv : alVal (buildTotals (recentExpensesOf fs c)) cat = p.2 := by
      apply alVal_of_mem hnd
      have : p = (cat, p.2) := by
        rw [← hpfst]
      rw [← this]
      exact hpin
    rw [← hval, hv]
    simpa using hpgt
  · intro h
    have hne : totalFor (recentExpensesOf fs c) cat ≠ 0 := by
      intro h0
      rw [h0] at h
      norm_num at h
    rcases totalFor_ne_zero_exists hne with ⟨t, htm, htk⟩
    have hkey : cat ∈ (buildTotals (recentExpensesOf fs c)).map Prod.fst := by
      rw [buildTotals, keys_foldTotals]
      exact Or.inr ⟨t, htm, htk⟩
    rcases List.mem_map.mp hkey with ⟨p, hpmem, hpfst⟩
    apply List.mem_map.mpr
    refine ⟨p, List.mem_filter.mpr ⟨hpmem, ?_⟩, hpfst⟩
    have : p = (cat, p.2) := by rw [← hpfst]
    have hv : alVal (buildTotals (recentExpensesOf fs c)) cat = p.2 :=
      alVal_of_mem hnd (this ▸ hpmem)
    rw [hval] at hv
    simpa [← hv] using h

/-! ## C4: category spikes -/

/-- The category label of the C4 scenario. -/
def food : String := "Food"

/-- Clock for the behavior scenarios. -/
def foodClock : Clock := ⟨100, 15, 30⟩

/-- Six `Food` expenses inside the trailing week totaling 6000. -/
def foodWeek6000 : List Transaction :=
  [⟨TType.expense, 1000, some food, 95, none⟩,
   ⟨TType.expense, 1000, some food, 96, none⟩,
   ⟨TType.expense, 1000, some food, 97, none⟩,
   ⟨TType.expense, 1000, some food, 98, none⟩,
   ⟨TType.expense, 1000, some food, 99, none⟩,
   ⟨TType.expense, 1000, some food, 100, none⟩]

/-- Six `Food` expenses inside the trailing week totaling 4000. -/
def foodWeek4000 : List Transaction :=
  [⟨TType.expense, 500, some food, 95, none⟩,
   ⟨TType.expense, 500, some food, 96, none⟩,
   ⟨TType.expense, 500, some food, 97, none⟩,
   ⟨TType.expense, 500, some food, 98, none⟩,
   ⟨TType.expense, 1000, some food, 99, none⟩,
   ⟨TType.expense, 1000, some food, 100, none⟩]

/-- C4: a category is in `categorySpikes` exactly when its bucket sum
over the trailing 7-day expense window exceeds 5000; in particular six
`Food` expenses totaling 6000 flag `Food`, while a 4000 total does
not. -/
theorem categorySpikes_characterization :
    (∀ (fs : List Transaction) (c : Clock) (cat : String),
      cat ∈ (runBehaviorModel fs c).categorySpikes ↔
        5000 < totalFor (recentExpensesOf fs c) cat) ∧
    food ∈ (runBehaviorModel foodWeek6000 foodClock).categorySpikes ∧
    food ∉ (runBehaviorModel foodWeek4000 foodClock).categorySpikes := by
  refine ⟨mem_categorySpikes_iff, ?_, ?_⟩
  · rw [mem_categorySpikes_iff]
    norm_num [totalFor, recentExpensesOf, foodWeek6000, foodClock, inLast7Days,
      catKey, food, sumAmounts, List.filter]
  · rw [mem_categorySpikes_iff]
    norm_num [totalFor, recentExpensesOf, foodWeek4000, foodClock, inLast7Days,
      catKey, food, sumAmounts, List.filter]

/-! ## C5: late-night spike -/

lemma isLateNightTx_eq (f : Transaction) :
    isLateNightTx f = (match f.timestamp with
      | some hour => decide (22 ≤ hour ∨ hour ≤ 5)
      | none => false) := by
  cases ht : f.timestamp with
  | none => simp [isLateNightTx, ht]
  | some hour =>
    by_cases h1 : 22 ≤ hour <;> by_cases h2 : hour ≤ 5 <;>
      simp [isLateNightTx, ht, h1, h2]

lemma lateNightCount_eq (ts : List Transaction) :
    (ts.countP (fun f => match f.timestamp with
      | some hour => decide (22 ≤ hour ∨ hour ≤ 5)
      | none => false)) = lateNightCountOf ts := by
  rw [List.countP_eq_length_filter, lateNightCountOf]
  congr 1
  apply List.filter_congr
  intro f _
  exact (isLateNightTx_eq f).symm

/-- C5: `lateNightSpike` holds exactly when at least 2 window
transactions carry a timestamp whose hour lies in 22–23 or 0–5
(records without a timestamp are skipped); a single qualifying
transaction never sets the flag. -/
theorem lateNightSpike_characterization :
    (∀ (fs : List Transaction) (c : Clock),
      (runBehaviorModel fs c).lateNightSpike = true ↔
        2 ≤ ((recentExpensesOf fs c).countP (fun f => match f.timestamp with
          | some hour => decide (22 ≤ hour ∨ hour ≤ 5)
          | none => false))) ∧
    (∀ (fs : List Transaction) (c : Clock),
      ((recentExpensesOf fs c).countP (fun f => match f.timestamp with
        | some hour => decide (22 ≤ hour ∨ hour ≤ 5)
        | none => false)) = 1 →
      (runBehaviorModel fs c).lateNightSpike = false) := by
  have hs : ∀ (fs : List Transaction) (c : Clock),
      (runBehaviorModel fs c).lateNightSpike =
        decide (2 ≤ lateNightCountOf (recentExpensesOf fs c)) := fun _ _ => rfl
  constructor
  · intro fs c
    rw [hs, lateNightCount_eq, decide_eq_true_eq]
  · intro fs c h1
    rw [hs, ← lateNightCount_eq, h1]
    simp

/-- C5 witness: one late-night expense (hour 23) in the window leaves
the flag unset. -/
theorem lateNightSpike_witness :
    (runBehaviorModel [⟨TType.expense, 800, none, 100, some 23⟩]
      ⟨100, 5, 30⟩).lateNightSpike = false :=
  lateNightSpike_characterization.2 [⟨TType.expense, 800, none, 100, some 23⟩]
    ⟨100, 5, 30⟩ (by decide)

/-! ## C6: weekend spike on weekday-only data -/

lemma weekday_not_weekend {d : ℤ} (h : isWeekdayDay d = true) :
    isWeekendDay d = false := by
  simp only [isWeekdayDay, Bool.and_eq_true, decide_eq_true_eq] at h
  simp only [isWeekendDay, Bool.or_eq_false_iff, decide_eq_false_iff_not]
  omega

/-- C6: when every window transaction falls on a weekday (Mon–Fri),
`weekendSpike` is false whatever the amounts; the empty weekend group's
mean uses denominator 1 and equals 0 (no division error is possible in
this total model). -/
theorem weekendSpike_weekdaysOnly :
    (∀ (fs : List Transaction) (c : Clock),
      (∀ f ∈ recentExpensesOf fs c, isWeekdayDay f.dateISO = true) →
      (runBehaviorModel fs c).weekendSpike = false) ∧
    avgTx [] = 0 := by
  constructor
  · intro fs c h
    have hempty : weekendsOf (recentExpensesOf fs c) = [] := by
      rw [weekendsOf, List.filter_eq_nil_iff]
      intro f hf
      simp [weekday_not_weekend (h f hf)]
    have hspike : (runBehaviorModel fs c).weekendSpike =
        (decide (avgTx (weekdaysOf (recentExpensesOf fs c)) * 1.5 <
          avgTx (weekendsOf (recentExpensesOf fs c))) &&
         decide (2000 < avgTx (weekendsOf (recentExpensesOf fs c)))) := rfl
    have havg : avgTx [] = 0 := by simp [avgTx, sumAmounts, orOne]
    rw [hspike, hempty, havg]
    have h2 : decide ((2000:ℚ) < 0) = false := by norm_num
    rw [h2, Bool.and_false]
  · simp [avgTx, sumAmounts, orOne]

/-- C6 witness: a huge Monday expense inside the window does not raise
the weekend flag. -/
theorem weekendSpike_weekdaysOnly_witness :
    (runBehaviorModel [⟨TType.expense, 99999, none, 102, none⟩]
      ⟨102, 5, 30⟩).weekendSpike = false :=
  weekendSpike_weekdaysOnly.1 [⟨TType.expense, 99999, none, 102, none⟩]
    ⟨102, 5, 30⟩ (by decide)

/-! ## C7: missing optional fields -/

/-- C7 (counterexample): a single category-less 6000 expense in the
window makes `categorySpikes` equal to `["undefined"]` — the record
without a category contributed to (and its JS bucket label appears in)
the spike list, contradicting the claim that such records never
contribute. -/
theorem missingCategory_counterexample :
    (∀ f ∈ ([⟨TType.expense, 6000, none, 100, none⟩] : List Transaction),
      f.category = none) ∧
    (runBehaviorModel [⟨TType.expense, 6000, none, 100, none⟩]
        ⟨100, 5, 30⟩).categorySpikes = ["undefined"] ∧
    (["undefined"] : List String) ≠ [] := by
  refine ⟨?_, ?_, ?_⟩
  · intro f hf
    simp only [List.mem_singleton] at hf
    subst hf
    rfl
  · norm_num [runBehaviorModel, recentExpensesOf, inLast7Days, buildTotals,
      addToTotals, catKey, List.filter]
  · simp

/-- C7 (amended): a transaction without a timestamp is never counted
toward the late-night spike (all-timestampless windows never flag);
a transaction without a category is accumulated under the JS property
key `"undefined"`, whose bucket appears in `categorySpikes` exactly
when its window total exceeds 5000; every sub-analysis is total (no
error). -/
theorem missingFields_policy :
    (∀ f : Transaction, f.timestamp = none → isLateNightTx f = false) ∧
    (∀ (fs : List Transaction) (c : Clock),
      (∀ f ∈ recentExpensesOf fs c, f.timestamp = none) →
      (runBehaviorModel fs c).lateNightSpike = false) ∧
    catKey none = "undefined" ∧
    (∀ (fs : List Transaction) (c : Clock),
      ("undefined") ∈ (runBehaviorModel fs c).categorySpikes ↔
        5000 < totalFor (recentExpensesOf fs c) ("undefined")) := by
  refine ⟨?_, ?_, rfl, ?_⟩
  · intro f h
    simp [isLateNightTx, h]
  · intro fs c h
    have hcount : lateNightCountOf (recentExpensesOf fs c) = 0 := by
      rw [lateNightCountOf]
      have : (recentExpensesOf fs c).filter isLateNightTx = [] := by
        rw [List.filter_eq_nil_iff]
        intro f hf
        simp [isLateNightTx, h f hf]
      rw [this]
      rfl
    have hs : (runBehaviorModel fs c).lateNightSpike =
        decide (2 ≤ lateNightCountOf (recentExpensesOf fs c)) := rfl
    rw [hs, hcount]
    simp
  · intro fs c
    exact mem_categorySpikes_iff fs c _

/-- C7 witness: a timestampless expense never counts as late-night and
never sets the flag. -/
theorem missingFields_policy_witness :
    isLateNightTx ⟨TType.expense, 50, none, 100, none⟩ = false ∧
    (runBehaviorModel [⟨TType.expense, 50, none, 100, none⟩]
      ⟨100, 5, 30⟩).lateNightSpike = false :=
  ⟨missingFields_policy.1 ⟨TType.expense, 50, none, 100, none⟩ rfl,
   missingFields_policy.2.1 [⟨TType.expense, 50, none, 100, none⟩]
     ⟨100, 5, 30⟩ (by decide)⟩

/-! ## C3: alert rules -/

/-- Scenario A clock: day 15 of a 30-day month. -/
def scenarioAClock : Clock := ⟨1000, 15, 30⟩

/-- Scenario A ledger: 9500 spent this month (outside the 7-day
window). -/
def scenarioAFinances : List Transaction := [⟨TType.expense, 9500, none, 990, none⟩]

/-- Scenario B clock: day 10 of a 30-day month. -/
def scenarioBClock : Clock := ⟨2000, 10, 30⟩

/-- Scenario B ledger: 8000 spent this month (outside the 7-day
window). -/
def scenarioBFinances : List Transaction := [⟨TType.expense, 8000, none, 1993, none⟩]

/-- C3: for a positive budget, `getAlerts` is the fixed-order
concatenation of four rules, each contributing zero or one alert —
`budget_critical` at utilization ≥ 90% else `budget_warning` at ≥ 75%,
a `velocity_spike` when `overspendRisk > 40`, a `behavior_anomaly` when
`lateNightSpike`, and a second `velocity_spike` when
`abnormalVelocity`.  With budget 10000 and 9500 spent, a
`budget_critical` alert is present; with budget 10000, 8000 spent on
day 10 of a 30-day month, a `velocity_spike` alert is present. -/
theorem getAlerts_rules :
    (∀ (fs : List Transaction) (b : ℚ) (c : Clock), 0 < b →
      getAlerts fs (some b) c =
        (if 0.9 ≤ (calculateState fs (some b) c).monthExpenses / b then
          [criticalAlert ((calculateState fs (some b) c).monthExpenses / b)]
         else if 0.75 ≤ (calculateState fs (some b) c).monthExpenses / b then
          [warningAlert ((calculateState fs (some b) c).monthExpenses / b)]
         else [])
        ++ (if 40 < (runRiskEngine (calculateState fs (some b) c) (some b) c).overspendRisk
            then [velocityAlert] else [])
        ++ (if (runBehaviorModel fs c).lateNightSpike then [lateNightAlert] else [])
        ++ (if (runBehaviorModel fs c).abnormalVelocity then [abnormalAlert] else [])) ∧
    AlertType.budget_critical ∈
      (getAlerts scenarioAFinances (some 10000) scenarioAClock).map Alert.type ∧
    AlertType.velocity_spike ∈
      (getAlerts scenarioBFinances (some 10000) scenarioBClock).map Alert.type := by
  refine ⟨?_, ?_, ?_⟩
  · intro fs b c hb
    have hbt : budgetGtZero (some b) = true := by simp [budgetGtZero, hb]
    simp only [getAlerts, budgetAlertsOf, hbt, if_true, budgetOr0]
  · norm_num [getAlerts, budgetAlertsOf, budgetGtZero, budgetOr0, calculateState,
      monthExpensesOf, monthIncomeOf, sumAmounts, inCurrentMonth, runRiskEngine,
      isFalsyBudget, jsRound, runBehaviorModel, recentExpensesOf, inLast7Days,
      buildTotals, addToTotals, avgTx, orOne, weekendsOf, weekdaysOf, isWeekendDay,
      isWeekdayDay, getDay, lateNightCountOf, isLateNightTx, criticalAlert,
      warningAlert, velocityAlert, lateNightAlert, abnormalAlert, scenarioAFinances,
      scenarioAClock, List.filter, catKey]
  · norm_num [getAlerts, budgetAlertsOf, budgetGtZero, budgetOr0, calculateState,
      monthExpensesOf, monthIncomeOf, sumAmounts, inCurrentMonth, runRiskEngine,
      isFalsyBudget, jsRound, runBehaviorModel, recentExpensesOf, inLast7Days,
      buildTotals, addToTotals, avgTx, orOne, weekendsOf, weekdaysOf, isWeekendDay,
      isWeekdayDay, getDay, lateNightCountOf, isLateNightTx, criticalAlert,
      warningAlert, velocityAlert, lateNightAlert, abnormalAlert, scenarioBFinances,
      scenarioBClock, List.filter, catKey]

/-- C3 witness: the rule decomposition applied to an empty ledger with
budget 5 yields no alerts. -/
theorem getAlerts_rules_witness :
    getAlerts [] (some 5) ⟨10, 1, 30⟩ = [] := by
  have h := getAlerts_rules.1 [] 5 ⟨10, 1, 30⟩ (by norm_num)
  rw [h]
  norm_num [calculateState, monthExpensesOf, monthIncomeOf, sumAmounts,
    inCurrentMonth, runRiskEngine, isFalsyBudget, jsRound, budgetOr0,
    runBehaviorModel, recentExpensesOf, inLast7Days, buildTotals, avgTx, orOne,
    weekendsOf, weekdaysOf, lateNightCountOf, List.filter]

/-! ## C9: habit streak update -/

lemma find?_updateFirst (acts : List Habit) (i : ℕ) (f : Habit → Habit)
    (hf : ∀ h : Habit, h.id = i → (f h).id = i) :
    (updateFirst acts i f).find? (fun h => decide (h.id = i)) =
      (acts.find? (fun h => decide (h.id = i))).map f := by
  induction acts with
  | nil => rfl
  | cons a rest ih =>
    by_cases ha : a.id = i
    · have hfa : (f a).id = i := hf a ha
      simp [updateFirst, List.find?, ha, hfa]
    · simp [updateFirst, List.find?, ha, ih]

lemma getStreak_updateFirst (acts : List Habit) (i : ℕ) (g : Habit → Habit)
    (a : Habit) (hfind : acts.find? (fun h => decide (h.id = i)) = some a)
    (hg : ∀ h : Habit, h.id = i → (g h).id = i) :
    getStreak (updateFirst acts i g) i = (g a).streak := by
  rw [getStreak, find?_updateFirst acts i g hg, hfind]
  rfl

/-- C9 (amended): the legacy `markHabitDone` implements the claimed
rule — same-day marking is a no-op, completion exactly one day after
the previous one increments the streak, any other gap (or no previous
completion) resets it to 1.  The enhanced page's `markDone` keeps the
same-day no-op (via the day's log bucket) but always increments the
streak on a new day, never resetting it. -/
theorem habit_streak_rule :
    (∀ (acts : List Habit) (logs : List (ℤ × List String)) (i : ℕ) (today : ℤ)
      (a : Habit), acts.find? (fun h => decide (h.id = i)) = some a →
      a.lastDone = some (today - 1) →
      getStreak (markHabitDone acts logs i today).1 i = a.streak + 1) ∧
    (∀ (acts : List Habit) (logs : List (ℤ × List String)) (i : ℕ) (today : ℤ)
      (a : Habit) (d : ℤ), acts.find? (fun h => decide (h.id = i)) = some a →
      a.lastDone = some d → d ≠ today → today - d ≠ 1 →
      getStreak (markHabitDone acts logs i today).1 i = 1) ∧
    (∀ (acts : List Habit) (logs : List (ℤ × List String)) (i : ℕ) (today : ℤ)
      (a : Habit), acts.find? (fun h => decide (h.id = i)) = some a →
      a.lastDone = none →
      getStreak (markHabitDone acts logs i today).1 i = 1) ∧
    (∀ (acts : List Habit) (logs : List (ℤ × List String)) (i : ℕ) (today : ℤ)
      (a : Habit), acts.find? (fun h => decide (h.id = i)) = some a →
      a.lastDone = some today →
      markHabitDone acts logs i today = (acts, logs)) ∧
    (∀ (acts : List Habit) (logs : List (ℤ × List ℕ)) (i : ℕ) (today : ℤ),
      i ∈ (logsGet logs today).getD [] →
      markDone acts logs i today = (acts, logs)) ∧
    (∀ (acts : List Habit) (logs : List (ℤ × List ℕ)) (i : ℕ) (today : ℤ)
      (a : Habit), acts.find? (fun h => decide (h.id = i)) = some a →
      i ∉ (logsGet logs today).getD [] →
      getStreak (markDone acts logs i today).1 i = a.streak + 1) := by
  refine ⟨?_, ?_, ?_, ?_, ?_, ?_⟩
  · intro acts logs i today a hfind hlast
    have hne : ¬((some (today - 1) : Option ℤ) = some today) := by
      simp only [Option.some.injEq]
      omega
    have hgap : today - (today - 1) = 1 := by ring
    simp only [markHabitDone, hfind, hlast, diffDays, hne, ite_false, hgap,
      eq_self_iff_true, ite_true]
    exact getStreak_updateFirst acts i _ a hfind (fun h hh => by simpa using hh)
  · intro acts logs i today a d hfind hlast hd hgap
    have hne : ¬((some d : Option ℤ) = some today) := by
      simp only [Option.some.injEq]
      exact hd
    simp only [markHabitDone, hfind, hlast, diffDays, hne, ite_false, hgap]
    exact getStreak_updateFirst acts i _ a hfind (fun h hh => by simpa using hh)
  · intro acts logs i today a hfind hlast
    have hne : ¬((none : Option ℤ) = some today) := by simp
    simp only [markHabitDone, hfind, hlast, hne, ite_false]
    exact getStreak_updateFirst acts i _ a hfind (fun h hh => by simpa using hh)
  · intro acts logs i today a hfind hlast
    simp only [markHabitDone, hfind]
    simp [hlast]
  · intro acts logs i today hmem
    simp only [markDone]
    simp [hmem]
  · intro acts logs i today a hfind hmem
    have haid : a.id = i := by
      have := List.find?_some hfind
      simpa using this
    simp only [markDone, hmem, if_false, hfind]
    exact getStreak_updateFirst acts i _ a hfind (fun h _ => by simpa using haid)

/-- C9 witness: a habit with streak 5 last completed yesterday reaches
streak 6 when marked today, and marking it again the same day changes
nothing. -/
theorem habit_streak_rule_witness :
    getStreak (markHabitDone [⟨1, "gym", 5, some 99⟩] [] 1 100).1 1 = 6 ∧
    markHabitDone (markHabitDone [⟨1, "gym", 5, some 99⟩] [] 1 100).1
        (markHabitDone [⟨1, "gym", 5, some 99⟩] [] 1 100).2 1 100 =
      ((markHabitDone [⟨1, "gym", 5, some 99⟩] [] 1 100).1,
       (markHabitDone [⟨1, "gym", 5, some 99⟩] [] 1 100).2) :=
  ⟨habit_streak_rule.1 [⟨1, "gym", 5, some 99⟩] [] 1 100 ⟨1, "gym", 5, some 99⟩
      (by decide) (by decide),
   habit_streak_rule.2.2.2.1 (markHabitDone [⟨1, "gym", 5, some 99⟩] [] 1 100).1
      (markHabitDone [⟨1, "gym", 5, some 99⟩] [] 1 100).2 1 100
      ⟨1, "gym", 6, some 100⟩ (by decide) (by decide)⟩

/-- C9 (counterexample): under `markDone`, a habit with streak 5 whose
only previous completion was three days ago gets streak 6 — the code
never resets to 1 as the claim requires. -/
theorem markDone_noReset_counterexample :
    getStreak (markDone [⟨7, "run", 5, none⟩] [(97, [7])] 7 100).1 7 = 6 ∧
    getStreak (markDone [⟨7, "run", 5, none⟩] [(97, [7])] 7 100).1 7 ≠ 1 := by
  constructor <;> decide

/-! ## Remaining witnesses -/

/-- C2 witness: the bounds at concrete inputs — budget 0 yields the
all-zero signals, and `overspendRisk` is nonnegative for a heavily
overspent state. -/
theorem runRiskEngine_bounds_witness :
    runRiskEngine ⟨0, 0, 0, SafetyLevel.Stable, 0, 0⟩ (some 0) ⟨100, 5, 30⟩ =
      ⟨0, 0, 0⟩ ∧
    0 ≤ (runRiskEngine ⟨-50, 0, -1, SafetyLevel.Critical, 200, 0⟩ (some 100)
      ⟨100, 5, 30⟩).overspendRisk :=
  ⟨(runRiskEngine_bounds ⟨0, 0, 0, SafetyLevel.Stable, 0, 0⟩ (some 0)
      ⟨100, 5, 30⟩).2 (by decide),
   (runRiskEngine_bounds ⟨-50, 0, -1, SafetyLevel.Critical, 200, 0⟩ (some 100)
      ⟨100, 5, 30⟩).1.1⟩

/-- C4 witness: a single 5001 `Food` expense in the window flags the
category. -/
theorem categorySpikes_witness :
    food ∈ (runBehaviorModel [⟨TType.expense, 5001, some food, 100, none⟩]
      ⟨100, 5, 30⟩).categorySpikes :=
  (categorySpikes_characterization.1 [⟨TType.expense, 5001, some food, 100, none⟩]
      ⟨100, 5, 30⟩ food).mpr
    (by norm_num [totalFor, recentExpensesOf, inLast7Days, catKey, food,
      sumAmounts, List.filter])

/-- C8 witness: the partition identity at a concrete two-element
ledger. -/
theorem monthExpenses_partition_witness :
    monthExpensesOf [⟨TType.expense, 3, none, 100, none⟩,
        ⟨TType.expense, 4, none, 0, none⟩] ⟨100, 5, 30⟩ +
      sumAmounts (([⟨TType.expense, 3, none, 100, none⟩,
        ⟨TType.expense, 4, none, 0, none⟩] : List Transaction).filter
        (fun f => decide (f.type = TType.expense) &&
          !inCurrentMonth ⟨100, 5, 30⟩ f.dateISO)) =
    sumAmounts (([⟨TType.expense, 3, none, 100, none⟩,
        ⟨TType.expense, 4, none, 0, none⟩] : List Transaction).filter
      (fun f => decide (f.type = TType.expense))) :=
  monthExpenses_partition [⟨TType.expense, 3, none, 100, none⟩,
    ⟨TType.expense, 4, none, 0, none⟩] ⟨100, 5, 30⟩
